import Mathlib

/-!
Verification of the Toolshed artifact retrieval and import pipeline
(`triage/util/azure_blob_storage.py` and
`triage/management/commands/import_toolshed.py`).

The Python code is shallowly embedded: strings are Lean `String`s
manipulated through their character lists (so every definition evaluates
by `rfl`/`decide`), fallible code returns `Except`, and the external
collaborators (the Azure container, the JSON decoder, the SARIF finding
importer, the Django cache) are passed in as explicit environment values.
Blob names are assumed newline-free, so Python's `re.match` patterns over
`[^/]+` and `.*` are rendered as segment splitting on `/`.
-/

namespace Triage

/-- Character-list based `startsWith` (Python `str.startswith`). -/
def strStartsWith (s p : String) : Bool :=
  List.isPrefixOf p.data s.data

/-- Character-list based `endsWith` (Python `str.endswith`). -/
def strEndsWith (s p : String) : Bool :=
  List.isPrefixOf p.data.reverse s.data.reverse

/-- Split a character list at every occurrence of `sep` (Python `str.split`). -/
def splitChars (sep : Char) : List Char → List (List Char)
  | [] => [[]]
  | c :: cs =>
    let r := splitChars sep cs
    if c = sep then [] :: r
    else
      match r with
      | [] => [[c]]
      | g :: gs => (c :: g) :: gs

/-- Split a string on `/` (used to render the `re.match` patterns of
`Command.filename_to_package_url`). -/
def splitSlash (s : String) : List String :=
  (splitChars '/' s.data).map String.mk

/-- packageurl.PackageURL restricted to the four fields this repository uses.
`nspace` stands for the Python attribute `namespace` (a Lean keyword). -/
structure PackageURL where
  ptype : String
  nspace : Option String
  name : String
  version : String
deriving DecidableEq, Repr

/-- Python truthiness of an optional string attribute (`None` and `""` are
falsy). -/
def optTruthy : Option String → Bool
  | none => false
  | some s => s ≠ ""

/-- ToolshedBlobStorageAccessor.get_toolshed_prefix: slash-joined storage
key computed from a package coordinate; `None` in gives `None` out. -/
def get_toolshed_pfx (package_url : Option PackageURL) : Option String :=
  match package_url with
  | none => none
  | some p =>
    if optTruthy p.nspace then
      some (p.ptype ++ "/" ++ p.nspace.getD "" ++ "/" ++ p.name ++ "/" ++ p.version)
    else
      some (p.ptype ++ "/" ++ p.name ++ "/" ++ p.version)

/-- The inline coordinate-to-storage-key computation in `Command.handle`
(import_toolshed.py lines 44-47). -/
def handlePfx (package_url : PackageURL) : String :=
  if optTruthy package_url.nspace then
    package_url.ptype ++ "/" ++ package_url.nspace.getD "" ++ "/" ++
      package_url.name ++ "/" ++ package_url.version
  else
    package_url.ptype ++ "/" ++ package_url.name ++ "/" ++ package_url.version

/-- Spec-side formulation: a list of segments joined by single slashes,
with no leading or trailing separator. -/
def slashJoin : List String → String
  | [] => ""
  | [x] => x
  | x :: xs => x ++ "/" ++ slashJoin xs

/-- Python `re.match` of `^([^/]+)/([^/]+)/([^/]+)/([^/]+)/.*$`: four
non-empty slash-free segments, then a slash and arbitrary trailing
material. -/
def match4 (filename : String) : Option (String × String × String × String) :=
  match splitSlash filename with
  | t :: ns :: n :: v :: rest =>
    if t ≠ "" ∧ ns ≠ "" ∧ n ≠ "" ∧ v ≠ "" ∧ rest ≠ [] then some (t, ns, n, v)
    else none
  | _ => none

/-- Python `re.match` of `^([^/]+)/([^/]+)/([^/]+)/.*$`. -/
def match3 (filename : String) : Option (String × String × String) :=
  match splitSlash filename with
  | t :: n :: v :: rest =>
    if t ≠ "" ∧ n ≠ "" ∧ v ≠ "" ∧ rest ≠ [] then some (t, n, v)
    else none
  | _ => none

/-- Command.filename_to_package_url. The source decides whether to pass a
namespace with `match.group("namespace") if "namespace" in match.groups()
else None`; `match.groups()` is the tuple of matched *values*, so the test
asks whether the literal string "namespace" occurs among them. In the
three-segment fallback a passing test makes `match.group("namespace")`
raise (no such group), which the surrounding `except` turns into `None`. -/
def filename_to_package_url (filename : String) : Option PackageURL :=
  match match4 filename with
  | some (t, ns, n, v) =>
    some ⟨t, if "namespace" ∈ [t, ns, n, v] then some ns else none, n, v⟩
  | none =>
    match match3 filename with
    | some (t, n, v) =>
      if "namespace" ∈ [t, n, v] then none
      else some ⟨t, none, n, v⟩
    | none => none

/-- Exceptions the embedded code can raise. -/
inductive PyError where
  /-- e.g. `int > NoneType` in a chained comparison, or `io.BytesIO(None)`. -/
  | typeError
  /-- `tarfile.open` on bytes that are not a valid tar archive. -/
  | tarReadError
  /-- an explicit `raise ValueError(msg)`. -/
  | valueError (msg : String)
deriving DecidableEq, Repr

/-- An entry of a blob listing as built by
AzureBlobStorageAccessor.get_blob_list (also reused for the dicts built by
ToolshedBlobStorageAccessor.get_package_files). -/
structure Blob where
  full_path : String
  relative_path : String
deriving DecidableEq, Repr

/-- Python slice `s[k:]` over characters. -/
def pySliceFrom (s : String) (k : Nat) : String :=
  ⟨s.data.drop k⟩

/-- AzureBlobStorageAccessor.get_blob_list. The Django cache entry for
this accessor's key and the provider listing (which may throw) are passed
in explicitly; the bare `except` returns `[]` on any provider failure. -/
def get_blob_list (pfx : String) (cached : Option (List Blob))
    (listing : Except Unit (List String)) : List Blob :=
  match cached with
  | some data => data
  | none =>
    match listing with
    | .error _ => []
    | .ok names => names.map fun n => ⟨n, pySliceFrom n (pfx.length + 1)⟩

/-- What the store holds for a `.tgz` object: `unavailable` models
get_blob_contents returning `None` (its own `except` caught the download
failure), `corrupt` models bytes that `tarfile.open` rejects. -/
inductive TarFetch where
  | unavailable
  | corrupt
  | archive (members : List String)
deriving DecidableEq, Repr

/-- The `io.BytesIO(contents)` / `tarfile.open` step of
get_package_files: `None` contents raise TypeError, invalid bytes raise
tarfile.ReadError, neither is caught in the source. -/
def expandTgz : TarFetch → Except PyError (List String)
  | .unavailable => .error .typeError
  | .corrupt => .error .tarReadError
  | .archive ms => .ok ms

/-- ToolshedBlobStorageAccessor.get_package_files: walk the listing, and
for each `reference-binaries` `.tgz` entry expand the archive members.
There is no try/except around the expansion, so the first failure
propagates and the partial result list is lost. -/
def get_package_files (blobs : List Blob) (env : String → TarFetch) :
    Except PyError (List Blob) :=
  match blobs with
  | [] => .ok []
  | b :: rest =>
    if strStartsWith b.relative_path "reference-binaries" &&
        strEndsWith b.relative_path ".tgz" then
      match expandTgz (env b.full_path) with
      | .error e => .error e
      | .ok members =>
        match get_package_files rest env with
        | .error e => .error e
        | .ok rs =>
          .ok (members.map (fun m => ⟨b.full_path ++ ":" ++ m, "package/" ++ m⟩) ++ rs)
    else
      get_package_files rest env

/-- Python whitespace characters recognized by `str.strip()` (ASCII part). -/
def pyIsSpace (c : Char) : Bool :=
  c ∈ [' ', '\t', '\n', '\x0d', '\x0b', '\x0c']

/-- Python `str.strip()`. -/
def pyStrip (s : String) : String :=
  ⟨((s.data.dropWhile pyIsSpace).reverse.dropWhile pyIsSpace).reverse⟩

/-- Presence of the two required storage settings. -/
structure Settings where
  url_set : Bool
  container_set : Bool
deriving DecidableEq, Repr

/-- AzureBlobStorageAccessor.__init__: validates the name prefix, then the
settings, and only then builds the BlobServiceClient (modelled by the
returned prefix string — reaching `.ok` is "a storage client was
created"). -/
def accessor_init (pfx : String) (settings : Settings) : Except PyError String :=
  if pfx = "" || pyStrip pfx = "" then
    .error (.valueError "name_prefix cannot be empty")
  else if !settings.url_set || !settings.container_set then
    .error (.valueError "TOOLSHED_BLOB_STORAGE_URL and TOOLSHED_BLOB_CONTAINER must be set")
  else
    .ok pfx

/-- Decoded SARIF document, opaque to the driver. -/
abbrev Sarif := String

/-- Parsed command-line options of `manage.py import_toolshed`.
`package` is the already-parsed `--package` coordinate (`none` = absent);
`maximum` is `none` exactly when `--maximum` was not given, in which case
argparse stores `None` under the key, so `options.get("maximum", 0)`
still yields `None`. -/
structure Options where
  package : Option PackageURL
  import_all : Bool
  maximum : Option Int
deriving Repr

/-- External collaborators of Command.handle: the container listing (in
provider order), the fetch-and-JSON-decode of one blob, and whether
SARIFImporter.import_sarif_file returns normally on a given call. -/
structure Env where
  store : List String
  fetchJson : String → Except Unit Sarif
  importOk : Option PackageURL → Sarif → Bool

/-- Mutable state of the `for blob in blobs` loop in Command.handle,
plus the observable interactions with the finding importer:
`handed` records every `import_sarif_file` invocation with the coordinate
passed, `imported` the invocations that returned, `failed` the objects
whose try-block raised. -/
structure RunState where
  package_url : Option PackageURL
  num_imported : Nat
  handed : List (String × Option PackageURL)
  imported : List String
  failed : List String
deriving DecidableEq, Repr

/-- The chained comparison `num_imported > options.get("maximum", 0) > 0`:
with `--maximum` absent the stored value is `None` and `int > None`
raises TypeError. -/
def maxCutoff (num_imported : Nat) (maximum : Option Int) : Except PyError Bool :=
  match maximum with
  | none => .error .typeError
  | some m => .ok (decide ((num_imported : Int) > m) && decide (m > 0))

/-- `num_imported += 1`. -/
def bump (st : RunState) : RunState :=
  { st with num_imported := st.num_imported + 1 }

/-- The coordinate used for a `.sarif` blob: `if not package_url:
package_url = self.filename_to_package_url(blob.name)` — the existing
value is reused whenever it is set. -/
def coordFor (st : RunState) (b : String) : Option PackageURL :=
  if st.package_url.isNone then filename_to_package_url b else st.package_url

/-- Processing of one eligible `.sarif` blob: coordinate resolution, then
the try-block around fetch, JSON decode and the importer call, whose
failures are all caught (`continue`). -/
def afterSarif (env : Env) (st : RunState) (b : String) : RunState :=
  let pu := coordFor st b
  let st₂ := { st with package_url := pu }
  match env.fetchJson b with
  | .error _ => { st₂ with failed := st₂.failed ++ [b] }
  | .ok doc =>
    let st₃ := { st₂ with handed := st₂.handed ++ [(b, pu)] }
    if env.importOk pu doc then { st₃ with imported := st₃.imported ++ [b] }
    else { st₃ with failed := st₃.failed ++ [b] }

/-- The `for blob in blobs` loop of Command.handle: count the blob, check
the maximum cutoff, filter on the `.sarif` suffix, process. -/
def importLoop (env : Env) (mx : Option Int) :
    List String → RunState → Except PyError RunState
  | [], st => .ok st
  | b :: rest, st =>
    match maxCutoff (st.num_imported + 1) mx with
    | .error e => .error e
    | .ok true => .ok (bump st)
    | .ok false =>
      if strEndsWith b ".sarif" then
        importLoop env mx rest (afterSarif env (bump st) b)
      else
        importLoop env mx rest (bump st)

/-- Command.handle: mode-selection check, then listing (scoped to the
package's storage key in `--package` mode, the whole store in
`--import-all` mode), then the import loop. The mode check precedes
every storage interaction, so the result on the no-mode path is
independent of `env`. -/
def handle (opts : Options) (env : Env) : Except PyError RunState :=
  if opts.package.isNone && !opts.import_all then
    .error (.valueError "Must specify either --package or --import-all")
  else
    match opts.package with
    | some package_url =>
      importLoop env opts.maximum
        (env.store.filter fun n => strStartsWith n (handlePfx package_url))
        ⟨some package_url, 0, [], [], []⟩
    | none =>
      if opts.import_all then
        importLoop env opts.maximum env.store ⟨none, 0, [], [], []⟩
      else
        .error (.valueError "Must specify either --package or --import-all")

/-! ### Helper lemmas and concrete scenario inputs -/

theorem string_append_assoc (a b c : String) : a ++ b ++ c = a ++ (b ++ c) := by
  apply String.ext
  simp [String.data_append]

/-- The first failing eligible archive makes the whole enumeration raise;
helper for the archive-failure analysis. -/
def eligibleTgz (b : Blob) : Bool :=
  strStartsWith b.relative_path "reference-binaries" && strEndsWith b.relative_path ".tgz"

/-- Whether the stored object makes the expansion raise. -/
def tarFails : TarFetch → Bool
  | .archive _ => false
  | _ => true

/-- With an integer maximum, `maxCutoff` cannot raise, so the import loop
always returns normally. -/
theorem importLoop_ok (env : Env) (m : Int) :
    ∀ (bs : List String) (st : RunState), ∃ st', importLoop env (some m) bs st = .ok st' := by
  intro bs
  induction bs with
  | nil => exact fun st => ⟨st, rfl⟩
  | cons b rest ih =>
    intro st
    cases hb : (decide (((st.num_imported + 1 : Nat) : Int) > m) && decide (m > 0)) with
    | false =>
      have hm : maxCutoff (st.num_imported + 1) (some m) = .ok false := by
        simp only [maxCutoff]
        rw [hb]
      cases hs : strEndsWith b ".sarif" with
      | false =>
        obtain ⟨st', h⟩ := ih (bump st)
        exact ⟨st', by simp only [importLoop, hm, hs]; exact h⟩
      | true =>
        obtain ⟨st', h⟩ := ih (afterSarif env (bump st) b)
        exact ⟨st', by simp only [importLoop, hm, hs]; exact h⟩
    | true =>
      have hm : maxCutoff (st.num_imported + 1) (some m) = .ok true := by
        simp only [maxCutoff]
        rw [hb]
      exact ⟨bump st, by simp only [importLoop, hm]⟩

/-- Once the attempted count would exceed a positive maximum, the loop
stops at the cutoff check: only the counter moves, nothing else is
touched. Helper for the cutoff analysis. -/
theorem importLoop_cutoff (env : Env) (m : Int) (b : String) (rest : List String)
    (st : RunState) (h1 : ((st.num_imported + 1 : Nat) : Int) > m) (h2 : 0 < m) :
    importLoop env (some m) (b :: rest) st = .ok (bump st) := by
  have hm : maxCutoff (st.num_imported + 1) (some m) = .ok true := by
    simp only [maxCutoff]
    have e1 : decide (((st.num_imported + 1 : Nat) : Int) > m) = true := decide_eq_true h1
    have e2 : decide (m > 0) = true := decide_eq_true h2
    rw [e1, e2]
    rfl
  simp only [importLoop, hm]

/-- Scenario A of the spec: the two-object left-pad listing, imported with
`--package pkg:npm/left-pad@1.3.0` and no `--maximum`. -/
def sAenv : Env :=
  ⟨["npm/left-pad/1.3.0/tool-codeql.sarif", "npm/left-pad/1.3.0/reference-binaries/pkg.tgz"],
    fun _ => .ok "{}", fun _ _ => true⟩

/-- Options of Scenario A: no maximum cap given. -/
def sAopts : Options := ⟨some ⟨"npm", none, "left-pad", "1.3.0"⟩, false, none⟩

/-- An import-all run over three objects: one whose path defeats
inference, then two objects of two different packages. -/
def c2env : Env :=
  ⟨["unknownformat/readme.sarif", "pypi/b/2.0/t2.sarif", "npm/a/1.0/t1.sarif"],
    fun _ => .ok "{}", fun _ _ => true⟩

/-- Options of the import-all run (`--maximum 0` disables the cutoff
without tripping the `None` comparison). -/
def c2opts : Options := ⟨none, true, some 0⟩

/-- The coordinate inferred from `pypi/b/2.0/t2.sarif`. -/
def pypiB : PackageURL := ⟨"pypi", none, "b", "2.0"⟩

/-- The coordinate `npm/a/1.0/t1.sarif` would infer for itself. -/
def npmA : PackageURL := ⟨"npm", none, "a", "1.0"⟩

/-- A listing whose first reference-binaries archive is corrupt and whose
second is fine. -/
def c3blobs : List Blob :=
  [⟨"npm/x/1.0/reference-binaries/bad.tgz", "reference-binaries/bad.tgz"⟩,
   ⟨"npm/x/1.0/reference-binaries/good.tgz", "reference-binaries/good.tgz"⟩]

/-- Store contents behind `c3blobs`. -/
def c3tar : String → TarFetch :=
  fun f => if f = "npm/x/1.0/reference-binaries/bad.tgz" then .corrupt
    else .archive ["a.txt"]

/-- Scenario C: the first eligible object's bytes are not valid JSON. -/
def c4env : Env :=
  ⟨["npm/p/1.0/tool-a.sarif", "npm/p/1.0/tool-b.sarif"],
    fun b => if b = "npm/p/1.0/tool-a.sarif" then .error () else .ok "{}",
    fun _ _ => true⟩

/-- The package coordinate used in Scenarios B and C. -/
def purlP : PackageURL := ⟨"npm", none, "p", "1.0"⟩

/-- Options of Scenario C. -/
def c4opts : Options := ⟨some purlP, false, some 0⟩

/-- First eligible object of Scenario B. -/
def c5a : String := "npm/p/1.0/tool-a.sarif"

/-- Second eligible object of Scenario B. -/
def c5b : String := "npm/p/1.0/tool-b.sarif"

/-- A run invoked with `--package` AND `--import-all` at once. -/
def c9opts : Options := ⟨some ⟨"pypi", none, "x", "9.9"⟩, true, some 0⟩

/-- Store for the double-mode run. -/
def c9env : Env := ⟨["pypi/x/9.9/tool-z.sarif"], fun _ => .ok "{}", fun _ _ => true⟩

/-! ### Claim theorems -/

/-- C1: on Scenario A's listing with no maximum cap set, the run does not
complete: argparse stores `maximum = None` and the very first loop
iteration raises TypeError in `num_imported > options.get("maximum", 0) > 0`,
before any object is imported and before any count could be reported. -/
theorem scenarioA_no_cap_raises_typeError :
    handle sAopts sAenv = .error .typeError := rfl

/-- C2: in import-all mode the driver does not infer a coordinate from
each eligible object's own path. On the run over `c2env` the object whose
path defeats inference is still handed to the finding importer (with
coordinate `none`), and the third object is handed with the coordinate
inferred from the *second* object's path (its own path would give `npmA`),
because `package_url` is reused once it is set. -/
theorem import_all_reuses_first_coordinate :
    handle c2opts c2env = .ok ⟨some pypiB, 3,
      [("unknownformat/readme.sarif", none),
       ("pypi/b/2.0/t2.sarif", some pypiB),
       ("npm/a/1.0/t1.sarif", some pypiB)],
      ["unknownformat/readme.sarif", "pypi/b/2.0/t2.sarif", "npm/a/1.0/t1.sarif"],
      []⟩
    ∧ filename_to_package_url "unknownformat/readme.sarif" = none
    ∧ filename_to_package_url "npm/a/1.0/t1.sarif" = some npmA
    ∧ npmA ≠ pypiB :=
  ⟨rfl, rfl, rfl, by decide⟩

/-- C3 (counterexample): with a corrupt first archive and a healthy second
one, get_package_files propagates the tarfile error and aborts the whole
enumeration instead of catching it per object and continuing. -/
theorem corrupt_archive_aborts_batch_cex :
    get_package_files c3blobs c3tar = .error .tarReadError := rfl

/-- C3 (amended): if any reference-binaries `.tgz` object of the listing
has unavailable or unopenable contents, the archive failure is not caught
per object: get_package_files raises and the whole enumeration aborts. -/
theorem corrupt_archive_error_propagates (env : String → TarFetch) :
    ∀ blobs : List Blob,
      (∃ b ∈ blobs, eligibleTgz b = true ∧ tarFails (env b.full_path) = true) →
      ∃ e, get_package_files blobs env = .error e := by
  intro blobs
  induction blobs with
  | nil =>
    rintro ⟨b, hb, -, -⟩
    exact absurd hb (List.not_mem_nil b)
  | cons x rest ih =>
    rintro ⟨b, hb, helig, hfail⟩
    cases hx : (strStartsWith x.relative_path "reference-binaries" &&
        strEndsWith x.relative_path ".tgz") with
    | false =>
      have hbr : b ∈ rest := by
        rcases List.mem_cons.mp hb with rfl | hm
        · simp only [eligibleTgz] at helig
          rw [helig] at hx
          exact Bool.noConfusion hx
        · exact hm
      obtain ⟨e, he⟩ := ih ⟨b, hbr, helig, hfail⟩
      refine ⟨e, ?_⟩
      simp only [get_package_files, hx]
      simpa using he
    | true =>
      cases henv : env x.full_path with
      | unavailable =>
        refine ⟨.typeError, ?_⟩
        simp [get_package_files, hx, henv, expandTgz]
      | corrupt =>
        refine ⟨.tarReadError, ?_⟩
        simp [get_package_files, hx, henv, expandTgz]
      | archive ms =>
        have hbr : b ∈ rest := by
          rcases List.mem_cons.mp hb with rfl | hm
          · rw [henv] at hfail
            simp [tarFails] at hfail
          · exact hm
        obtain ⟨e, he⟩ := ih ⟨b, hbr, helig, hfail⟩
        refine ⟨e, ?_⟩
        simp [get_package_files, hx, henv, expandTgz, he]

/-- C3 (witness): the amended statement applied to the concrete corrupt
listing. -/
theorem corrupt_archive_error_propagates_witness :
    ∃ e, get_package_files c3blobs c3tar = .error e :=
  corrupt_archive_error_propagates c3tar c3blobs
    ⟨⟨"npm/x/1.0/reference-binaries/bad.tgz", "reference-binaries/bad.tgz"⟩,
      List.mem_cons_self _ _, by decide, by decide⟩

/-- C4: with an integer maximum the run never lets a per-object failure
escape (first two conjuncts, for the package mode and the import-all
mode), and on Scenario C's listing the invalid-JSON object yields exactly
one failed outcome while the next eligible object is still imported. -/
theorem per_object_failures_isolated :
    (∀ (purl : PackageURL) (ia : Bool) (m : Int) (env : Env),
        ∃ st, handle ⟨some purl, ia, some m⟩ env = .ok st)
    ∧ (∀ (m : Int) (env : Env), ∃ st, handle ⟨none, true, some m⟩ env = .ok st)
    ∧ handle c4opts c4env = .ok ⟨some purlP, 2,
        [("npm/p/1.0/tool-b.sarif", some purlP)],
        ["npm/p/1.0/tool-b.sarif"], ["npm/p/1.0/tool-a.sarif"]⟩ := by
  refine ⟨?_, ?_, rfl⟩
  · intro purl ia m env
    exact importLoop_ok env m _ _
  · intro m env
    exact importLoop_ok env m _ _

/-- C5: once the attempted count exceeds a positive maximum the loop stops
at the cutoff check with every remaining object untouched (first
conjunct), and on Scenario B — `--maximum 1` with two eligible objects —
exactly the first object is handed to the importer, whatever the store
would have returned for the second (the conclusion holds for every fetch
function that succeeds on the first object). -/
theorem max_cutoff_single_attempt :
    (∀ (env : Env) (m : Int) (b : String) (rest : List String) (st : RunState),
        ((st.num_imported + 1 : Nat) : Int) > m → 0 < m →
        importLoop env (some m) (b :: rest) st = .ok (bump st))
    ∧ ∀ (f : String → Except Unit Sarif) (imp : Option PackageURL → Sarif → Bool)
        (d : Sarif), f c5a = .ok d → imp (some purlP) d = true →
        handle ⟨some purlP, false, some 1⟩ ⟨[c5a, c5b], f, imp⟩ =
          .ok ⟨some purlP, 2, [(c5a, some purlP)], [c5a], []⟩ := by
  refine ⟨fun env m b rest st h1 h2 => importLoop_cutoff env m b rest st h1 h2, ?_⟩
  intro f imp d hf himp
  have ha : afterSarif ⟨[c5a, c5b], f, imp⟩ (bump ⟨some purlP, 0, [], [], []⟩) c5a
      = ⟨some purlP, 1, [(c5a, some purlP)], [c5a], []⟩ := by
    simp [afterSarif, coordFor, bump, hf, himp]
  show importLoop ⟨[c5a, c5b], f, imp⟩ (some 1) [c5b]
      (afterSarif ⟨[c5a, c5b], f, imp⟩ (bump ⟨some purlP, 0, [], [], []⟩) c5a)
      = .ok ⟨some purlP, 2, [(c5a, some purlP)], [c5a], []⟩
  rw [ha]
  rfl

/-- C5 (witness): the cutoff clause at a concrete state past the maximum,
and Scenario B with a concrete store. -/
theorem max_cutoff_single_attempt_witness :
    importLoop ⟨[], fun _ => .ok "", fun _ _ => true⟩ (some 1) ["x.sarif"]
        ⟨none, 1, [], [], []⟩ = .ok (bump ⟨none, 1, [], [], []⟩)
    ∧ handle ⟨some purlP, false, some 1⟩ ⟨[c5a, c5b], fun _ => .ok "{}", fun _ _ => true⟩
      = .ok ⟨some purlP, 2, [(c5a, some purlP)], [c5a], []⟩ :=
  ⟨max_cutoff_single_attempt.1 ⟨[], fun _ => .ok "", fun _ _ => true⟩ 1 "x.sarif" []
      ⟨none, 1, [], [], []⟩ (by decide) (by decide),
    max_cutoff_single_attempt.2 (fun _ => .ok "{}") (fun _ _ => true) "{}" rfl rfl⟩

/-- A coordinate with a namespace, for the round-trip analysis. -/
def ns6 : PackageURL := ⟨"npm", some "googleapis", "pad", "1.0"⟩

/-- What inference actually recovers from `ns6`'s storage key. -/
def stripped6 : PackageURL := ⟨"npm", none, "pad", "1.0"⟩

/-- C6: the four-segment pattern is indeed tried (and matches) first, but
the round-trip still fails for every namespaced coordinate: the matched
namespace value is dropped because the source tests `"namespace" in
match.groups()` — membership of the literal string among the matched
values — so inference returns the coordinate without its namespace. -/
theorem namespaced_roundtrip_drops_nspace :
    handlePfx ns6 = "npm/googleapis/pad/1.0"
    ∧ match4 (handlePfx ns6 ++ "/tool.sarif") = some ("npm", "googleapis", "pad", "1.0")
    ∧ filename_to_package_url (handlePfx ns6 ++ "/tool.sarif") = some stripped6
    ∧ stripped6 ≠ ns6 :=
  ⟨rfl, rfl, rfl, by decide⟩

/-- C7: the accessor's get_toolshed_prefix and the inline computation in
Command.handle agree on every coordinate, and both equal the slash-joined
segments — four with a (truthy) namespace, three without, with no
trailing separator (slashJoin places `/` only between segments). -/
theorem storage_key_agreement (p : PackageURL) :
    get_toolshed_pfx (some p) = some (handlePfx p)
    ∧ handlePfx p = (if optTruthy p.nspace then
          slashJoin [p.ptype, p.nspace.getD "", p.name, p.version]
        else slashJoin [p.ptype, p.name, p.version]) := by
  constructor
  · cases h : optTruthy p.nspace <;> simp [get_toolshed_pfx, handlePfx, h]
  · cases h : optTruthy p.nspace <;>
      simp [handlePfx, slashJoin, h, string_append_assoc]

/-- C8: a provider failure during listing is swallowed into an empty
result; on success each listed key becomes a descriptor whose
relative_path is the key with `len(prefix) + 1` leading characters — the
prefix plus one separator — removed, so a key of the form
`prefix ++ "/" ++ rest` yields exactly `rest`. -/
theorem blob_list_swallows_errors_and_strips (p : String) (names : List String)
    (rest : String) :
    get_blob_list p none (.error ()) = []
    ∧ get_blob_list p none (.ok names)
        = names.map (fun n => Blob.mk n (pySliceFrom n (p.length + 1)))
    ∧ pySliceFrom (p ++ "/" ++ rest) (p.length + 1) = rest := by
  refine ⟨rfl, rfl, ?_⟩
  apply String.ext
  show ((p ++ "/" ++ rest).data).drop (p.length + 1) = rest.data
  have hdata : (p ++ "/" ++ rest).data = (p.data ++ ['/']) ++ rest.data := by
    simp [String.data_append]
  have hlen : p.length + 1 = (p.data ++ ['/']).length := by
    simp
  rw [hdata, hlen, List.drop_left]

/-- C9 (counterexample): invoking the command with BOTH `--package` and
`--import-all` is accepted — the run proceeds in package mode instead of
raising the mode-selection error, so the two modes are not mutually
exclusive. -/
theorem both_modes_accepted_cex :
    c9opts.import_all = true
    ∧ (c9opts.package).isSome = true
    ∧ handle c9opts c9env
        = .ok ⟨some ⟨"pypi", none, "x", "9.9"⟩, 1,
            [("pypi/x/9.9/tool-z.sarif", some ⟨"pypi", none, "x", "9.9"⟩)],
            ["pypi/x/9.9/tool-z.sarif"], []⟩ :=
  ⟨rfl, rfl, rfl⟩

/-- C9 (amended): at least one of the two modes must be selected —
invoking with neither raises the configuration ValueError, and does so
identically for every storage environment, i.e. before any storage I/O;
invoking with both raises nothing: `--package` takes precedence and the
run behaves exactly as if `--import-all` had not been given. -/
theorem mode_check_before_io :
    (∀ (env : Env) (m : Option Int),
        handle ⟨none, false, m⟩ env
          = .error (.valueError "Must specify either --package or --import-all"))
    ∧ ∀ (env : Env) (p : PackageURL) (m : Option Int),
        handle ⟨some p, true, m⟩ env = handle ⟨some p, false, m⟩ env :=
  ⟨fun _ _ => rfl, fun _ _ _ => rfl⟩

/-- C10: a name prefix that is empty or all-whitespace makes the accessor
constructor raise `ValueError("name_prefix cannot be empty")`, for every
settings state — the check precedes the settings validation and the
client construction, which only happens on the `.ok` path. -/
theorem empty_or_space_rejected (s : String) (settings : Settings)
    (h : s = "" ∨ s.data.all pyIsSpace = true) :
    accessor_init s settings = .error (.valueError "name_prefix cannot be empty") := by
  have hc : s = "" ∨ pyStrip s = "" := by
    rcases h with h | h
    · exact Or.inl h
    · refine Or.inr ?_
      have hnil : s.data.dropWhile pyIsSpace = [] :=
        List.dropWhile_eq_nil_iff.mpr fun x hx => List.all_eq_true.mp h x hx
      simp [pyStrip, hnil]
  rcases hc with h | h
  · subst h
    rfl
  · simp [accessor_init, h]

/-- C10 (witness): the whitespace-only prefix `" \t "` is rejected. -/
theorem empty_or_space_rejected_witness :
    accessor_init " \t " ⟨true, true⟩
      = .error (.valueError "name_prefix cannot be empty") :=
  empty_or_space_rejected " \t " ⟨true, true⟩ (Or.inr (by decide))

end Triage
